import Mathlib

/-!
Formal model of the closed-loop fan control engine of the `fancontrol`
repository, embedded shallowly in Lean 4.

The definitions mirror, function by function, the Python sources:
  * `src/lib/scheduler.py`            (`MicroScheduler`)
  * `src/lib/control/pwm_request.py`  (`PWMRequest`)
  * `src/lib/control/fan.py`          (`Fan.__calculate`)
  * `src/lib/control/pwm_sensor.py`   (`PWMSensor` state machine)
  * `src/lib/control/temperature_sensor.py`

Numbers are modelled as `ℤ` (sysfs integers, PWM duty cycles) and `ℚ`
(Python floats: temperatures after division by 1000, time stamps, step
delays).  I/O side effects are modelled by explicit outcome parameters
(`WriteRes`, `Option ℤ` for reads) plus an event log of attempted writes,
and a raised Python exception is modelled as a `some err` component of the
result, paired with the object state at the moment of the raise.
-/

namespace FanControl

/-- Python 3's `round` on a real (banker's rounding): nearest integer,
ties to even.  Used by `Fan.__calculate` in `src/lib/control/fan.py`. -/
def pyRound (x : ℚ) : ℤ :=
  if x - ⌊x⌋ < 1/2 then ⌊x⌋
  else if 1/2 < x - ⌊x⌋ then ⌊x⌋ + 1
  else if Even ⌊x⌋ then ⌊x⌋ else ⌊x⌋ + 1

/-- The configured integer bounds of one `Fan`
(`src/lib/control/fan.py`, loaded in `Fan.load_configuration`). -/
structure FanCfg where
  pwm_min : ℤ
  pwm_max : ℤ
  pwm_start : ℤ
  pwm_stop : ℤ
  sensor_min : ℤ
  sensor_max : ℤ
deriving DecidableEq, Repr

/-- A `PWMRequest` (`src/lib/control/pwm_request.py`) stripped of the
`requester` back-pointer, which is used only for log formatting. -/
structure Request where
  target_value : ℤ
  start_value : Option ℤ
deriving DecidableEq, Repr

/-- The linear interpolation expression inside `Fan.__calculate`
(`src/lib/control/fan.py`, lines 69-72), before rounding. -/
def fanInterp (c : FanCfg) (temp : ℚ) : ℚ :=
  (temp - (c.sensor_min : ℚ)) * ((c.pwm_max : ℚ) - (c.pwm_min : ℚ))
    / ((c.sensor_max : ℚ) - (c.sensor_min : ℚ))
  + (c.pwm_min : ℚ)

/-- The temperature-to-duty-cycle mapping of `Fan.__calculate`
(`src/lib/control/fan.py`, lines 61-72): clamp at the sensor bounds,
otherwise linear interpolation rounded with Python's `round`. -/
def fanPwmValue (c : FanCfg) (temp : ℚ) : ℤ :=
  if temp ≤ (c.sensor_min : ℚ) then c.pwm_min
  else if (c.sensor_max : ℚ) ≤ temp then c.pwm_max
  else pyRound (fanInterp c temp)

/-- Full `Fan.__calculate` (`src/lib/control/fan.py`, lines 55-80): the
stall guard adds a `pwm_start` kick-start value when the computed value
exceeds `pwm_stop` while the tachometer reads zero. -/
def fanCalculate (c : FanCfg) (temp : ℚ) (tach : ℤ) : Request :=
  let pwm_value := fanPwmValue c temp
  if c.pwm_stop < pwm_value ∧ tach = 0 then
    ⟨pwm_value, some c.pwm_start⟩
  else
    ⟨pwm_value, none⟩

/-- `TemperatureSensor.read_int` (`src/lib/control/temperature_sensor.py`,
lines 14-15) divides the raw sysfs integer by `1000.0`; `update()` caches
that value and `get_value()` returns the cache, so the value a fan sees
for a raw reading `raw` is exactly `raw / 1000`. -/
def temperatureValue (raw : ℤ) : ℚ :=
  (raw : ℚ) / 1000

/-- `PWMSensor.__next_step_value` (`src/lib/control/pwm_sensor.py`,
lines 143-148): step `last_value` towards `target` by at most
`pwm_steps`. -/
def next_step_value (last_value target pwm_steps : ℤ) : ℤ :=
  if last_value < target then last_value + min pwm_steps |last_value - target|
  else if target < last_value then last_value - min pwm_steps |last_value - target|
  else last_value

/-- Exceptions of `src/lib/exceptions.py` that the modelled code can raise,
plus the scheduler conditions.  A raised exception is a `some` in the
first component of a result. -/
inductive Err where
  | controlRuntimeError
  | schedulerLimitExceeded
  | notScheduled
deriving DecidableEq, Repr

/-- `MicroScheduler` (`src/lib/scheduler.py`): `step_delay` in seconds,
optional trip `limit` with remaining budget `count`, and the deadline
fields set by `set_next`.  In Python `count` is `None` exactly when
`limit` is `None` and is never read in that case; here it is an `ℕ`
initialised from the limit (0 when there is none). -/
structure MicroScheduler where
  step_delay : ℚ
  limit : Option ℕ
  count : ℕ
  next_set : Bool
  last_updated : Option ℚ
  trigger_at : Option ℚ
deriving DecidableEq, Repr

/-- `MicroScheduler.__init__` composed with `set_limit` and `clear`. -/
def MicroScheduler.init (step_delay : ℚ) (limit : Option ℕ) : MicroScheduler :=
  { step_delay := step_delay, limit := limit, count := limit.getD 0,
    next_set := false, last_updated := none, trigger_at := none }

/-- `MicroScheduler.__check_limit` (`src/lib/scheduler.py`, lines 43-55):
no-op without a limit; otherwise decrement the budget or raise
`SchedulerLimitExceeded` leaving the scheduler untouched. -/
def MicroScheduler.checkLimit (s : MicroScheduler) : Option Err × MicroScheduler :=
  match s.limit with
  | none => (none, s)
  | some _ =>
    if 0 < s.count then (none, { s with count := s.count - 1 })
    else (some .schedulerLimitExceeded, s)

/-- `MicroScheduler.set_next` (`src/lib/scheduler.py`, lines 30-40): check
the limit first (a raise leaves the deadline untouched), then record the
new deadline. -/
def MicroScheduler.set_next (s : MicroScheduler) (now : ℚ) : Option Err × MicroScheduler :=
  match s.checkLimit with
  | (some e, s') => (some e, s')
  | (none, s') =>
    (none, { s' with last_updated := some now,
                     trigger_at := some (now + s.step_delay),
                     next_set := true })

/-- `MicroScheduler.was_passed` (`src/lib/scheduler.py`, lines 58-77).
`last_updated`/`trigger_at` are `some` whenever `next_set` is true, so the
`getD 0` defaults are never exercised on reachable schedulers. -/
def MicroScheduler.was_passed (s : MicroScheduler) (now : ℚ) : Option Err × Bool :=
  if ¬ s.next_set then (some .notScheduled, false)
  else if now < s.last_updated.getD 0 then (none, true)
  else if s.step_delay * 2 < now - s.last_updated.getD 0 then (none, true)
  else (none, decide (s.trigger_at.getD 0 < now))

/-- `MicroScheduler.suggest_step_delay` (`src/lib/scheduler.py`,
lines 80-85). -/
def MicroScheduler.suggest_step_delay (cycle_length max_steps : ℚ)
    (max_length : Option ℚ) : ℚ :=
  match max_length with
  | some ml => if ml < cycle_length / max_steps then ml else cycle_length / max_steps
  | none => cycle_length / max_steps

/-- Iterated `set_next` with a list of wall-clock times. -/
def setNextIter (s : MicroScheduler) : List ℚ → MicroScheduler
  | [] => s
  | now :: nows => setNextIter (s.set_next now).2 nows

/-! ### The PWM output state machine (`src/lib/control/pwm_sensor.py`) -/

/-- The `STATE_*` constants of `PWMSensor`. -/
inductive PWMMachineState where
  | stopped
  | starting
  | running
  | stopping
  | unknown
deriving DecidableEq, Repr

/-- A write attempted on the hardware: `pwm*` device file or
`pwm*_enable` file, with the value passed to `RawSensor.write`. -/
inductive Attempt where
  | device (v : ℤ)
  | enable (v : ℤ)
deriving DecidableEq, Repr

/-- Outcome of one `RawSensor.write` call supplied by the environment:
either the write succeeds or it raises `SensorException`. -/
inductive WriteRes where
  | ok
  | err
deriving DecidableEq, Repr

/-- The mutable attributes of one `PWMSensor` object, plus the
configuration it reads (`delay` of the controller, the `pwm_max` of every
registered fan) and the log of attempted hardware writes. -/
structure PWMSensorState where
  state : PWMMachineState
  last_value : ℤ
  target : ℤ
  value : ℤ
  requests : List Request
  scheduler : Option MicroScheduler
  original_enable : Option ℤ
  delay : ℚ
  fansPwmMax : List ℤ
  attempts : List Attempt
deriving DecidableEq, Repr

/-- `PWMSensor.PWM_MIN`. -/
def PWM_MIN : ℤ := 0

/-- `PWMSensor.PWM_MAX`. -/
def PWM_MAX : ℤ := 255

/-- `PWMSensor.__write` (`src/lib/control/pwm_sensor.py`, lines 282-290)
on the `pwm*` device file: on `SensorException`, raise
`ControlRuntimeError` unless `ignore_exceptions`, in which case log and
return `False`.  The attempted write is recorded in the event log. -/
def pwmWrite (s : PWMSensorState) (w : WriteRes) (v : ℤ) (ignore : Bool) :
    Option Err × Bool × PWMSensorState :=
  let s' := { s with attempts := s.attempts ++ [Attempt.device v] }
  match w with
  | .ok => (none, true, s')
  | .err =>
    if ignore then (none, false, s')
    else (some .controlRuntimeError, false, s')

/-- `PWMSensor.write_enable` (`src/lib/control/pwm_sensor.py`,
lines 278-279): `__write` against the `_enable` path. -/
def writeEnable (s : PWMSensorState) (w : WriteRes) (v : ℤ) (ignore : Bool) :
    Option Err × Bool × PWMSensorState :=
  let s' := { s with attempts := s.attempts ++ [Attempt.enable v] }
  match w with
  | .ok => (none, true, s')
  | .err =>
    if ignore then (none, false, s')
    else (some .controlRuntimeError, false, s')

/-- `PWMRequest.get_max` (`src/lib/control/pwm_request.py`, lines 34-48):
a left fold over the requests tracking the request with the largest
`start_value` among those that have one, and the request with the largest
`target_value`.  The inner `none` start on an accumulated start request
cannot occur (such a request always has a `start_value`); that branch
keeps the accumulator. -/
def PWMRequest.get_max (requests : List Request) : Option Request × Option Request :=
  requests.foldl
    (fun acc request =>
      let req_start :=
        match request.start_value with
        | none => acc.1
        | some sv =>
          match acc.1 with
          | none => some request
          | some rs =>
            match rs.start_value with
            | some sv' => if sv' < sv then some request else acc.1
            | none => acc.1
      let req_target :=
        match acc.2 with
        | none => some request
        | some rt => if rt.target_value < request.target_value then some request else acc.2
      (req_start, req_target))
    (none, none)

/-- `PWMRequest.get_max_target` (`src/lib/control/pwm_request.py`,
lines 8-12). -/
def PWMRequest.get_max_target (requests : List Request) : Option ℤ :=
  match (PWMRequest.get_max requests).2 with
  | some rt => some rt.target_value
  | none => none

/-- `PWMSensor.__discard_requests` (`src/lib/control/pwm_sensor.py`,
lines 222-226); the warning log on dropped requests has no state
effect. -/
def discardRequests (s : PWMSensorState) : PWMSensorState :=
  { s with requests := [] }

/-- `PWMSensor.__new_state` (`src/lib/control/pwm_sensor.py`,
lines 151-155): record the new state and drop the phase scheduler. -/
def newState (s : PWMSensorState) (st : PWMMachineState) : PWMSensorState :=
  { s with state := st, scheduler := none }

/-- `PWMSensor.update` (`src/lib/control/pwm_sensor.py`, lines 55-62):
`Sensor.update` reads a fresh value, keeping the cached one if the read
raises `SensorException` (`src/lib/control/sensor.py`, lines 15-29), then
pending requests are discarded. -/
def PWMSensor.update (s : PWMSensorState) (readRes : Option ℤ) : PWMSensorState :=
  let s₁ :=
    match readRes with
    | some v => { s with value := v }
    | none => s
  discardRequests s₁

/-- `PWMSensor.request_value` (`src/lib/control/pwm_sensor.py`,
lines 212-219). -/
def PWMSensor.request_value (s : PWMSensorState) (request : Request) : PWMSensorState :=
  { s with requests := s.requests ++ [request] }

/-- `PWMSensor.__set_starting` (`src/lib/control/pwm_sensor.py`,
lines 193-197): only after the kick-start write returns success does the
state move to STARTING and are `target`/`last_value` assigned. -/
def setStarting (s : PWMSensorState) (w : WriteRes) (pwm_start pwm_target : ℤ) :
    Option Err × PWMSensorState :=
  match pwmWrite s w pwm_start false with
  | (some e, _, s') => (some e, s')
  | (none, true, s') =>
    (none, { s' with state := .starting, scheduler := none,
                     target := pwm_target, last_value := pwm_start })
  | (none, false, s') => (none, s')

/-- `PWMSensor.__plan_from_stopped` (`src/lib/control/pwm_sensor.py`,
lines 173-190): aggregate the pending requests, and if any carried a
start value, kick-start with the largest value seen in either field. -/
def planFromStopped (s : PWMSensorState) (w : WriteRes) : Option Err × PWMSensorState :=
  let m := PWMRequest.get_max s.requests
  let max_value₁ :=
    match m.2 with
    | some rt => if PWM_MIN < rt.target_value then rt.target_value else PWM_MIN
    | none => PWM_MIN
  let max_value :=
    match m.1 with
    | some rs =>
      match rs.start_value with
      | some sv => if max_value₁ < sv then sv else max_value₁
      | none => max_value₁
    | none => max_value₁
  match m.1 with
  | some _ =>
    let tgt :=
      match m.2 with
      | some rt => rt.target_value
      | none => 0
    match setStarting s w max_value tgt with
    | (some e, s') => (some e, s')
    | (none, s') => (none, discardRequests s')
  | none => (none, discardRequests s)

/-- `PWMSensor.__plan_from_running` (`src/lib/control/pwm_sensor.py`,
lines 200-209): refresh `last_value` from the cached reading, take the
largest requested target if any, move to STOPPING when the target is
zero, and discard the requests. -/
def planFromRunning (s : PWMSensorState) : Option Err × PWMSensorState :=
  let s₁ := { s with last_value := s.value }
  let s₂ : PWMSensorState :=
    match PWMRequest.get_max_target s₁.requests with
    | some t => { s₁ with target := t }
    | none => s₁
  let s₃ := if s₂.target = 0 then newState s₂ .stopping else s₂
  (none, discardRequests s₃)

/-- `PWMSensor.plan_ahead` (`src/lib/control/pwm_sensor.py`,
lines 158-170): dispatch on the current state; any state other than
STOPPED or RUNNING only logs an error and declines to plan. -/
def plan_ahead (s : PWMSensorState) (w : WriteRes) : Option Err × PWMSensorState :=
  match s.state with
  | .stopped => planFromStopped s w
  | .running => planFromRunning s
  | _ => (none, s)

/-- The environment of one `u_tick` call: the wall-clock time, the
`peek_running()` poll of every registered fan's tachometer (read failures
already folded to `false` by `FanSensor.peek_running`), and the outcome
of a device write should one happen. -/
structure TickEnv where
  now : ℚ
  fansRunning : List Bool
  write : WriteRes
deriving DecidableEq, Repr

/-- `PWMSensor.__tick_from_starting` (`src/lib/control/pwm_sensor.py`,
lines 81-101): a 1-second scheduler with a budget of 5; on each deadline
poll the tachometers, moving to RUNNING when all spin, re-arming
otherwise; when the budget is exhausted (`SchedulerLimitExceeded` caught)
force the transition to RUNNING. -/
def tickFromStarting (s : PWMSensorState) (e : TickEnv) : Option Err × PWMSensorState :=
  match s.scheduler with
  | none =>
    let sch := MicroScheduler.init 1 (some 5)
    let r := sch.set_next e.now
    (r.1, { s with scheduler := some r.2 })
  | some sch =>
    match sch.was_passed e.now with
    | (some err, _) => (some err, s)
    | (none, false) => (none, s)
    | (none, true) =>
      if e.fansRunning.all (fun b => b) then (none, newState s .running)
      else
        match sch.set_next e.now with
        | (some _, _) => (none, newState s .running)
        | (none, sch') => (none, { s with scheduler := some sch' })

/-- `PWMSensor.__tick_from_stopping` (`src/lib/control/pwm_sensor.py`,
lines 104-117): a 0.5-second scheduler; on each deadline either conclude
STOPPED when `last_value` equals `target`, or step towards it (default
step 20) and write the stepped value.  `last_value` is assigned before
the write, so a raising write leaves the new `last_value` behind. -/
def tickFromStopping (s : PWMSensorState) (e : TickEnv) : Option Err × PWMSensorState :=
  match s.scheduler with
  | none =>
    let sch := MicroScheduler.init (1/2) none
    let r := sch.set_next e.now
    (r.1, { s with scheduler := some r.2 })
  | some sch =>
    match sch.was_passed e.now with
    | (some err, _) => (some err, s)
    | (none, false) => (none, s)
    | (none, true) =>
      if s.last_value = s.target then (none, newState s .stopped)
      else
        let next := next_step_value s.last_value s.target 20
        let s₁ := { s with last_value := next }
        match pwmWrite s₁ e.write next false with
        | (some err, _, s₂) => (some err, s₂)
        | (none, _, s₂) =>
          match sch.set_next e.now with
          | (_, sch') => (none, { s₂ with scheduler := some sch' })

/-- `PWMSensor.__tick_from_running` (`src/lib/control/pwm_sensor.py`,
lines 120-140): like stopping but the scheduler step is sized by
`suggest_step_delay(delay, 255/20, 2)` and reaching the target only
re-arms. -/
def tickFromRunning (s : PWMSensorState) (e : TickEnv) : Option Err × PWMSensorState :=
  match s.scheduler with
  | none =>
    let sch := MicroScheduler.init
      (MicroScheduler.suggest_step_delay s.delay (PWM_MAX / 20 : ℚ) (some 2)) none
    let r := sch.set_next e.now
    (r.1, { s with scheduler := some r.2 })
  | some sch =>
    match sch.was_passed e.now with
    | (some err, _) => (some err, s)
    | (none, false) => (none, s)
    | (none, true) =>
      if s.last_value = s.target then
        match sch.set_next e.now with
        | (_, sch') => (none, { s with scheduler := some sch' })
      else
        let next := next_step_value s.last_value s.target 20
        let s₁ := { s with last_value := next }
        match pwmWrite s₁ e.write next false with
        | (some err, _, s₂) => (some err, s₂)
        | (none, _, s₂) =>
          match sch.set_next e.now with
          | (_, sch') => (none, { s₂ with scheduler := some sch' })

/-- `PWMSensor.u_tick` (`src/lib/control/pwm_sensor.py`, lines 65-78):
dispatch on the current state; STOPPED and UNKNOWN do nothing. -/
def u_tick (s : PWMSensorState) (e : TickEnv) : Option Err × PWMSensorState :=
  match s.state with
  | .starting => tickFromStarting s e
  | .stopping => tickFromStopping s e
  | .running => tickFromRunning s e
  | _ => (none, s)

/-- `PWMSensor.__get_max` (`src/lib/control/pwm_sensor.py`,
lines 336-343): the configured maximum over the registered fans;
`PWM_MAX` only when no fan is registered (`max(..., default=PWM_MAX)`). -/
def getMaxCfg (s : PWMSensorState) : ℤ :=
  match s.fansPwmMax with
  | [] => PWM_MAX
  | v :: vs => vs.foldl max v

/-- Outcomes of the up to three writes `shutdown` may attempt. -/
structure ShutdownEnv where
  enable : WriteRes
  request : WriteRes
  maxw : WriteRes
deriving DecidableEq, Repr

/-- Third fallback of `PWMSensor.shutdown` (lines 326-333): write the
configured maximum, log on total failure, discard requests, return
`False`. -/
def shutdownStep3 (s : PWMSensorState) (env : ShutdownEnv) (ignore : Bool) :
    Option Err × Bool × PWMSensorState :=
  match pwmWrite s env.maxw (getMaxCfg s) ignore with
  | (some e, _, s') => (some e, false, s')
  | (none, _, s') => (none, false, discardRequests s')

/-- Second fallback of `PWMSensor.shutdown` (lines 319-324): write the
largest pending requested target, if there is one. -/
def shutdownStep2 (s : PWMSensorState) (env : ShutdownEnv) (ignore : Bool) :
    Option Err × Bool × PWMSensorState :=
  match PWMRequest.get_max_target s.requests with
  | some t =>
    match pwmWrite s env.request t ignore with
    | (some e, _, s') => (some e, false, s')
    | (none, true, s') => (none, true, discardRequests s')
    | (none, false, s') => shutdownStep3 s' env ignore
  | none => shutdownStep3 s env ignore

/-- `PWMSensor.shutdown` (`src/lib/control/pwm_sensor.py`,
lines 305-333): restore `original_enable` if known; else/on failure fall
back to the largest pending request, then to the configured maximum. -/
def PWMSensor.shutdown (s : PWMSensorState) (env : ShutdownEnv) (ignore : Bool) :
    Option Err × Bool × PWMSensorState :=
  match s.original_enable with
  | none => shutdownStep2 s env ignore
  | some oe =>
    match writeEnable s env.enable oe ignore with
    | (some e, _, s') => (some e, false, s')
    | (none, true, s') => (none, true, discardRequests s')
    | (none, false, s') => shutdownStep2 s' env ignore

/-- One externally driven call on a `PWMSensor` after `setup()`:
a planning pass or a micro-tick, with its environment. -/
inductive PWMCall where
  | plan (w : WriteRes)
  | tick (e : TickEnv)
deriving DecidableEq, Repr

/-- The state after one call, raising or not (a raised exception leaves
the object holding exactly the state it had at the raise point). -/
def pwmStep (s : PWMSensorState) (c : PWMCall) : PWMSensorState :=
  match c with
  | .plan w => (plan_ahead s w).2
  | .tick e => (u_tick s e).2

/-- The state after a sequence of calls. -/
def pwmRun (s : PWMSensorState) (cs : List PWMCall) : PWMSensorState :=
  cs.foldl pwmStep s

/-! ### Concrete sample states used by witnesses -/

/-- A concrete RUNNING-state PWM output with one pending request, used as
a witness input. -/
def sampleRunningState : PWMSensorState :=
  { state := .running, last_value := 0, target := 5, value := 9,
    requests := [⟨50, none⟩], scheduler := none, original_enable := none,
    delay := 10, fansPwmMax := [], attempts := [] }

/-- A concrete STOPPED-state PWM output with one kick-start request, used
as a witness input. -/
def sampleStoppedState : PWMSensorState :=
  { state := .stopped, last_value := 3, target := 7, value := 0,
    requests := [⟨90, some 80⟩], scheduler := none, original_enable := none,
    delay := 10, fansPwmMax := [], attempts := [] }

/-- A STOPPED-state PWM output holding the two requests of the C2
arbitration scenario. -/
def sampleArbitrationState : PWMSensorState :=
  { state := .stopped, last_value := 0, target := 0, value := 0,
    requests := [⟨50, none⟩, ⟨90, some 80⟩], scheduler := none,
    original_enable := none, delay := 10, fansPwmMax := [], attempts := [] }

/-- A PWM output about to shut down with a captured original enable mode
and one pending request, used as a witness input. -/
def sampleShutdownState : PWMSensorState :=
  { state := .running, last_value := 120, target := 120, value := 120,
    requests := [⟨200, none⟩], scheduler := none, original_enable := some 2,
    delay := 10, fansPwmMax := [230], attempts := [] }

/-! ### Facts about Python rounding -/

lemma floor_le_pyRound (x : ℚ) : ⌊x⌋ ≤ pyRound x := by
  unfold pyRound; split_ifs <;> omega

lemma pyRound_le_floor_add_one (x : ℚ) : pyRound x ≤ ⌊x⌋ + 1 := by
  unfold pyRound; split_ifs <;> omega

lemma pyRound_intCast (n : ℤ) : pyRound (n : ℚ) = n := by
  unfold pyRound
  rw [Int.floor_intCast]
  norm_num

lemma le_pyRound_of_le {a : ℤ} {x : ℚ} (h : (a : ℚ) ≤ x) : a ≤ pyRound x :=
  le_trans (Int.le_floor.2 h) (floor_le_pyRound x)

lemma pyRound_le_of_le {b : ℤ} {x : ℚ} (h : x ≤ (b : ℚ)) : pyRound x ≤ b := by
  rcases eq_or_lt_of_le h with he | hlt
  · rw [he, pyRound_intCast]
  · have hb : ⌊x⌋ < b := Int.floor_lt.2 hlt
    have := pyRound_le_floor_add_one x
    omega

lemma pyRound_mono {x y : ℚ} (h : x ≤ y) : pyRound x ≤ pyRound y := by
  rcases lt_or_le ⌊x⌋ ⌊y⌋ with hf | hf
  · have h1 := pyRound_le_floor_add_one x
    have h2 := floor_le_pyRound y
    omega
  · have hfe : ⌊x⌋ = ⌊y⌋ := le_antisymm (Int.floor_le_floor h) hf
    have hr : x - (⌊y⌋ : ℚ) ≤ y - (⌊y⌋ : ℚ) := by linarith
    unfold pyRound
    rw [hfe]
    split_ifs <;> first | omega | linarith

/-! ### Facts about the duty-cycle interpolation -/

section FanCalc

variable {c : FanCfg}

lemma fanInterp_mono (hs : c.sensor_min < c.sensor_max) (hp : c.pwm_min ≤ c.pwm_max)
    {t₁ t₂ : ℚ} (h : t₁ ≤ t₂) : fanInterp c t₁ ≤ fanInterp c t₂ := by
  have hD : (0 : ℚ) < (c.sensor_max : ℚ) - (c.sensor_min : ℚ) := by
    have : (c.sensor_min : ℚ) < (c.sensor_max : ℚ) := by exact_mod_cast hs
    linarith
  have hK : (0 : ℚ) ≤ (c.pwm_max : ℚ) - (c.pwm_min : ℚ) := by
    have : (c.pwm_min : ℚ) ≤ (c.pwm_max : ℚ) := by exact_mod_cast hp
    linarith
  unfold fanInterp
  have hnum : (t₁ - (c.sensor_min : ℚ)) * ((c.pwm_max : ℚ) - (c.pwm_min : ℚ))
      ≤ (t₂ - (c.sensor_min : ℚ)) * ((c.pwm_max : ℚ) - (c.pwm_min : ℚ)) :=
    mul_le_mul_of_nonneg_right (by linarith) hK
  have h2 := (div_le_div_iff₀ hD hD).2 (mul_le_mul_of_nonneg_right hnum hD.le)
  linarith

lemma fanInterp_lower (hs : c.sensor_min < c.sensor_max) (hp : c.pwm_min ≤ c.pwm_max)
    {t : ℚ} (h : (c.sensor_min : ℚ) ≤ t) : (c.pwm_min : ℚ) ≤ fanInterp c t := by
  have hD : (0 : ℚ) < (c.sensor_max : ℚ) - (c.sensor_min : ℚ) := by
    have : (c.sensor_min : ℚ) < (c.sensor_max : ℚ) := by exact_mod_cast hs
    linarith
  have hK : (0 : ℚ) ≤ (c.pwm_max : ℚ) - (c.pwm_min : ℚ) := by
    have : (c.pwm_min : ℚ) ≤ (c.pwm_max : ℚ) := by exact_mod_cast hp
    linarith
  have hterm : (0 : ℚ) ≤ (t - (c.sensor_min : ℚ)) * ((c.pwm_max : ℚ) - (c.pwm_min : ℚ))
      / ((c.sensor_max : ℚ) - (c.sensor_min : ℚ)) :=
    div_nonneg (mul_nonneg (by linarith) hK) hD.le
  unfold fanInterp
  linarith

lemma fanInterp_upper (hs : c.sensor_min < c.sensor_max) (hp : c.pwm_min ≤ c.pwm_max)
    {t : ℚ} (h : t ≤ (c.sensor_max : ℚ)) : fanInterp c t ≤ (c.pwm_max : ℚ) := by
  have hD : (0 : ℚ) < (c.sensor_max : ℚ) - (c.sensor_min : ℚ) := by
    have : (c.sensor_min : ℚ) < (c.sensor_max : ℚ) := by exact_mod_cast hs
    linarith
  have hK : (0 : ℚ) ≤ (c.pwm_max : ℚ) - (c.pwm_min : ℚ) := by
    have : (c.pwm_min : ℚ) ≤ (c.pwm_max : ℚ) := by exact_mod_cast hp
    linarith
  have hnum : (t - (c.sensor_min : ℚ)) * ((c.pwm_max : ℚ) - (c.pwm_min : ℚ))
      ≤ ((c.sensor_max : ℚ) - (c.sensor_min : ℚ)) * ((c.pwm_max : ℚ) - (c.pwm_min : ℚ)) :=
    mul_le_mul_of_nonneg_right (by linarith) hK
  have h2 : (t - (c.sensor_min : ℚ)) * ((c.pwm_max : ℚ) - (c.pwm_min : ℚ))
      / ((c.sensor_max : ℚ) - (c.sensor_min : ℚ))
      ≤ ((c.sensor_max : ℚ) - (c.sensor_min : ℚ)) * ((c.pwm_max : ℚ) - (c.pwm_min : ℚ))
      / ((c.sensor_max : ℚ) - (c.sensor_min : ℚ)) :=
    (div_le_div_iff₀ hD hD).2 (mul_le_mul_of_nonneg_right hnum hD.le)
  have h3 : ((c.sensor_max : ℚ) - (c.sensor_min : ℚ)) * ((c.pwm_max : ℚ) - (c.pwm_min : ℚ))
      / ((c.sensor_max : ℚ) - (c.sensor_min : ℚ)) = (c.pwm_max : ℚ) - (c.pwm_min : ℚ) :=
    mul_div_cancel_left₀ _ (ne_of_gt hD)
  unfold fanInterp
  linarith

lemma fanPwmValue_mono (hs : c.sensor_min < c.sensor_max) (hp : c.pwm_min ≤ c.pwm_max)
    {t₁ t₂ : ℚ} (h : t₁ ≤ t₂) : fanPwmValue c t₁ ≤ fanPwmValue c t₂ := by
  have hsQ : (c.sensor_min : ℚ) < (c.sensor_max : ℚ) := by exact_mod_cast hs
  unfold fanPwmValue
  split_ifs with h1 h2 h3 h4 h5 h6 h7
  · exact le_refl _
  · exact hp
  · exact le_pyRound_of_le (fanInterp_lower hs hp (by linarith))
  · linarith
  · exact le_refl _
  · linarith
  · linarith
  · exact pyRound_le_of_le (fanInterp_upper hs hp (by linarith))
  · exact pyRound_mono (fanInterp_mono hs hp h)

end FanCalc

/-! ### Claim C1: the duty-cycle target of a `Fan` -/

/-- C1: for every `Fan` whose bounds satisfy `sensor_min < sensor_max`
and `pwm_min ≤ pwm_max`, the computed duty-cycle target equals `pwm_min`
for `t ≤ sensor_min`, `pwm_max` for `t ≥ sensor_max`, the rounded linear
interpolation strictly in between, and as a function of `t` it is
monotonically non-decreasing. -/
theorem fan_target_bounds_and_monotone (c : FanCfg)
    (hs : c.sensor_min < c.sensor_max) (hp : c.pwm_min ≤ c.pwm_max) :
    (∀ t : ℚ, t ≤ (c.sensor_min : ℚ) → fanPwmValue c t = c.pwm_min) ∧
    (∀ t : ℚ, (c.sensor_max : ℚ) ≤ t → fanPwmValue c t = c.pwm_max) ∧
    (∀ t : ℚ, (c.sensor_min : ℚ) < t → t < (c.sensor_max : ℚ) →
      fanPwmValue c t = pyRound (fanInterp c t)) ∧
    (∀ t₁ t₂ : ℚ, t₁ ≤ t₂ → fanPwmValue c t₁ ≤ fanPwmValue c t₂) := by
  have hsQ : (c.sensor_min : ℚ) < (c.sensor_max : ℚ) := by exact_mod_cast hs
  refine ⟨?_, ?_, ?_, fun t₁ t₂ h => fanPwmValue_mono hs hp h⟩
  · intro t ht
    simp [fanPwmValue, ht]
  · intro t ht
    unfold fanPwmValue
    rw [if_neg (by linarith), if_pos ht]
  · intro t h1 h2
    unfold fanPwmValue
    rw [if_neg (by linarith), if_neg (by linarith)]

/-- Witness for C1 at the configuration
`pwm_min=0, pwm_max=255, pwm_start=100, pwm_stop=40, sensor_min=20,
sensor_max=60`. -/
theorem fan_target_bounds_and_monotone_witness :
    (20 : ℤ) < 60 ∧ (0 : ℤ) ≤ 255 ∧
    ((∀ t : ℚ, t ≤ ((20 : ℤ) : ℚ) →
        fanPwmValue ⟨0, 255, 100, 40, 20, 60⟩ t = 0) ∧
     (∀ t : ℚ, ((60 : ℤ) : ℚ) ≤ t →
        fanPwmValue ⟨0, 255, 100, 40, 20, 60⟩ t = 255) ∧
     (∀ t : ℚ, ((20 : ℤ) : ℚ) < t → t < ((60 : ℤ) : ℚ) →
        fanPwmValue ⟨0, 255, 100, 40, 20, 60⟩ t
          = pyRound (fanInterp ⟨0, 255, 100, 40, 20, 60⟩ t)) ∧
     (∀ t₁ t₂ : ℚ, t₁ ≤ t₂ →
        fanPwmValue ⟨0, 255, 100, 40, 20, 60⟩ t₁
          ≤ fanPwmValue ⟨0, 255, 100, 40, 20, 60⟩ t₂)) :=
  ⟨by decide, by decide,
   fan_target_bounds_and_monotone ⟨0, 255, 100, 40, 20, 60⟩ (by decide) (by decide)⟩

/-! ### Claim C6: the concrete scenario at temperature 40 -/

/-- C6 counterexample: with `sensor_min=20, sensor_max=60, pwm_min=0,
pwm_max=255, pwm_start=100, pwm_stop=40`, temperature 40 and tachometer 0,
the interpolation lands on 127.5 and Python's `round` (ties to even)
gives target 128, not the claimed 127. -/
theorem fan_scenario_not_127 :
    fanCalculate ⟨0, 255, 100, 40, 20, 60⟩ 40 0 = ⟨128, some 100⟩ ∧
    (Request.mk 128 (some 100)).target_value ≠ 127 := by
  refine ⟨?_, by decide⟩
  norm_num [fanCalculate, fanPwmValue, fanInterp, pyRound, Int.even_iff]

/-- C6 amended: the same scenario produces a request with target value
`round(127.5) = 128` (banker's rounding) and start value 100. -/
theorem fan_scenario_128 :
    fanCalculate ⟨0, 255, 100, 40, 20, 60⟩ 40 0 = ⟨128, some 100⟩ := by
  norm_num [fanCalculate, fanPwmValue, fanInterp, pyRound, Int.even_iff]

/-! ### Claim C9: the temperature unit conversion -/

/-- C9 counterexample: a raw reading of 1500 yields the value 1.5, which
is not a whole number at all — neither 1 nor 2, and in particular not the
rounding of 1.5 to the nearest whole unit. -/
theorem temperature_not_rounded :
    temperatureValue 1500 ≠ ((1 : ℤ) : ℚ) ∧
    temperatureValue 1500 ≠ ((2 : ℤ) : ℚ) ∧
    temperatureValue 1500 ≠ ((pyRound (temperatureValue 1500) : ℤ) : ℚ) := by
  have h2 : pyRound (temperatureValue 1500) = 2 := by
    norm_num [temperatureValue, pyRound, Int.even_iff]
  refine ⟨by norm_num [temperatureValue], by norm_num [temperatureValue], ?_⟩
  rw [h2]
  norm_num [temperatureValue]

/-- C9 amended: a temperature sensor's `get_value()` returns the raw
integer divided by 1000 exactly, with no rounding; the result is a whole
number exactly when 1000 divides the raw value. -/
theorem temperature_exact_division (raw : ℤ) :
    temperatureValue raw * 1000 = (raw : ℚ) ∧
    ((∃ k : ℤ, temperatureValue raw = (k : ℚ)) ↔ (1000 : ℤ) ∣ raw) := by
  constructor
  · unfold temperatureValue
    field_simp
  · constructor
    · rintro ⟨k, hk⟩
      unfold temperatureValue at hk
      have h1000 : ((1000 : ℤ) : ℚ) ≠ 0 := by norm_num
      have : (raw : ℚ) = ((1000 * k : ℤ) : ℚ) := by
        push_cast
        field_simp at hk
        linarith
      exact ⟨k, by exact_mod_cast this⟩
    · rintro ⟨k, rfl⟩
      refine ⟨k, ?_⟩
      unfold temperatureValue
      push_cast
      field_simp

/-! ### Claim C3: the ramp stepping rule -/

lemma next_step_value_self (target pwm_steps : ℤ) :
    next_step_value target target pwm_steps = target := by
  unfold next_step_value
  simp

lemma next_step_value_between (last_value target pwm_steps : ℤ) (hs : 0 < pwm_steps) :
    min last_value target ≤ next_step_value last_value target pwm_steps ∧
    next_step_value last_value target pwm_steps ≤ max last_value target := by
  unfold next_step_value
  split_ifs with h1 h2
  · rw [abs_of_neg (by omega : last_value - target < 0)]
    omega
  · rw [abs_of_pos (by omega : (0:ℤ) < last_value - target)]
    omega
  · omega

lemma next_step_value_dist (last_value target pwm_steps : ℤ) (hs : 0 < pwm_steps)
    (hne : last_value ≠ target) :
    (target - next_step_value last_value target pwm_steps).natAbs
      < (target - last_value).natAbs := by
  unfold next_step_value
  split_ifs with h1 h2
  · rw [abs_of_neg (by omega : last_value - target < 0)]
    omega
  · rw [abs_of_pos (by omega : (0:ℤ) < last_value - target)]
    omega
  · omega

lemma next_step_value_reach (target pwm_steps : ℤ) (hs : 0 < pwm_steps) :
    ∀ d : ℕ, ∀ v : ℤ, (target - v).natAbs ≤ d →
      (fun x => next_step_value x target pwm_steps)^[d] v = target := by
  intro d
  induction d with
  | zero =>
    intro v hv
    simp only [Function.iterate_zero, id_eq]
    omega
  | succ n ih =>
    intro v hv
    rw [Function.iterate_succ_apply]
    apply ih
    by_cases hv' : v = target
    · subst hv'
      simp [next_step_value_self]
    · have := next_step_value_dist v target pwm_steps hs hv'
      omega

lemma next_step_value_iterate_between (last_value target pwm_steps : ℤ)
    (hs : 0 < pwm_steps) (n : ℕ) :
    min last_value target
      ≤ (fun v => next_step_value v target pwm_steps)^[n] last_value ∧
    (fun v => next_step_value v target pwm_steps)^[n] last_value
      ≤ max last_value target := by
  induction n with
  | zero => simp
  | succ n ih =>
    rw [Function.iterate_succ_apply']
    have h := next_step_value_between
      ((fun v => next_step_value v target pwm_steps)^[n] last_value) target pwm_steps hs
    omega

/-- C3: for every `last_value` and `target` in 0..255 and every positive
step size, iterating the stepping rule reaches exactly `target` after
finitely many applications, and every intermediate value stays between
`last_value` and `target` — it never passes beyond `target` in either
direction. -/
theorem next_step_converges_without_overshoot (last_value target pwm_steps : ℤ)
    (h1 : 0 ≤ last_value) (h2 : last_value ≤ 255)
    (h3 : 0 ≤ target) (h4 : target ≤ 255) (h5 : 0 < pwm_steps) :
    (∃ n : ℕ, (fun v => next_step_value v target pwm_steps)^[n] last_value = target) ∧
    (∀ n : ℕ,
      min last_value target
        ≤ (fun v => next_step_value v target pwm_steps)^[n] last_value ∧
      (fun v => next_step_value v target pwm_steps)^[n] last_value
        ≤ max last_value target) :=
  ⟨⟨(target - last_value).natAbs,
    next_step_value_reach target pwm_steps h5 _ last_value (le_refl _)⟩,
   fun n => next_step_value_iterate_between last_value target pwm_steps h5 n⟩

/-- Witness for C3 at `last_value = 10`, `target = 200`, step 20. -/
theorem next_step_converges_without_overshoot_witness :
    (0 : ℤ) ≤ 10 ∧ (10 : ℤ) ≤ 255 ∧ (0 : ℤ) ≤ 200 ∧ (200 : ℤ) ≤ 255 ∧ (0 : ℤ) < 20 ∧
    ((∃ n : ℕ, (fun v => next_step_value v 200 20)^[n] 10 = 200) ∧
     (∀ n : ℕ, min 10 200 ≤ (fun v => next_step_value v 200 20)^[n] 10 ∧
        (fun v => next_step_value v 200 20)^[n] 10 ≤ max 10 200)) :=
  ⟨by decide, by decide, by decide, by decide, by decide,
   next_step_converges_without_overshoot 10 200 20
     (by decide) (by decide) (by decide) (by decide) (by decide)⟩

/-! ### Claim C7: the scheduler trip limit -/

lemma set_next_success {s : MicroScheduler} {N : ℕ} (hl : s.limit = some N)
    (hc : 0 < s.count) (now : ℚ) :
    (s.set_next now).1 = none ∧ (s.set_next now).2.count = s.count - 1 ∧
    (s.set_next now).2.limit = s.limit := by
  unfold MicroScheduler.set_next MicroScheduler.checkLimit
  rw [hl]
  simp [hc]

lemma setNextIter_count (N : ℕ) (δ : ℚ) :
    ∀ nows : List ℚ, ∀ s : MicroScheduler, s.limit = some N →
      nows.length ≤ s.count →
      (setNextIter s nows).count = s.count - nows.length ∧
      (setNextIter s nows).limit = some N := by
  intro nows
  induction nows with
  | nil => intro s hl hle; simpa using ⟨rfl, hl⟩
  | cons now nows ih =>
    intro s hl hle
    simp only [List.length_cons] at hle ⊢
    have hc : 0 < s.count := by omega
    obtain ⟨-, h2, h3⟩ := set_next_success hl hc now
    unfold setNextIter
    have hih := ih (s.set_next now).2 (h3.trans hl) (by omega)
    refine ⟨?_, hih.2⟩
    rw [hih.1, h2]
    omega

lemma set_next_failure {s : MicroScheduler} {N : ℕ} (hl : s.limit = some N)
    (hc : s.count = 0) (now : ℚ) :
    (s.set_next now).1 = some Err.schedulerLimitExceeded ∧ (s.set_next now).2 = s := by
  unfold MicroScheduler.set_next MicroScheduler.checkLimit
  rw [hl]
  simp [hc]

/-- C7: for a `MicroScheduler` constructed with `limit = N`, exactly the
first `N` calls to `set_next` succeed; the `(N+1)`-th raises
`SchedulerLimitExceeded` and leaves the whole scheduler — in particular
`last_updated` and `trigger_at` — unchanged. -/
theorem scheduler_limit_exact (N : ℕ) (δ : ℚ) (nows : List ℚ) (now : ℚ) :
    (nows.length < N →
      ((setNextIter (MicroScheduler.init δ (some N)) nows).set_next now).1 = none) ∧
    (nows.length = N →
      ((setNextIter (MicroScheduler.init δ (some N)) nows).set_next now).1
          = some Err.schedulerLimitExceeded ∧
      ((setNextIter (MicroScheduler.init δ (some N)) nows).set_next now).2
          = setNextIter (MicroScheduler.init δ (some N)) nows) := by
  have hcount : (MicroScheduler.init δ (some N)).count = N := rfl
  have hlimit : (MicroScheduler.init δ (some N)).limit = some N := rfl
  constructor
  · intro hlt
    have h := setNextIter_count N δ nows _ hlimit (by omega)
    exact (set_next_success h.2 (by omega) now).1
  · intro heq
    have h := setNextIter_count N δ nows _ hlimit (by omega)
    exact set_next_failure h.2 (by omega) now

theorem scheduler_limit_exact_witness :
    ((setNextIter (MicroScheduler.init 5 (some 2)) [0]).set_next 1).1 = none ∧
    (((setNextIter (MicroScheduler.init 5 (some 2)) [0, 1]).set_next 2).1
        = some Err.schedulerLimitExceeded ∧
     ((setNextIter (MicroScheduler.init 5 (some 2)) [0, 1]).set_next 2).2
        = setNextIter (MicroScheduler.init 5 (some 2)) [0, 1]) :=
  ⟨(scheduler_limit_exact 2 5 [0] 1).1 (by decide),
   (scheduler_limit_exact 2 5 [0, 1] 2).2 (by decide)⟩

/-! ### Claim C4: no direct STOPPED-RUNNING transitions -/

lemma planFromStopped_state (s : PWMSensorState) (w : WriteRes) :
    (planFromStopped s w).2.state = s.state ∨ (planFromStopped s w).2.state = .starting := by
  rcases hm : (PWMRequest.get_max s.requests).1 with _ | rs
  · left
    simp [planFromStopped, hm, discardRequests]
  · cases w
    · right
      simp [planFromStopped, hm, setStarting, pwmWrite, discardRequests]
    · left
      simp [planFromStopped, hm, setStarting, pwmWrite, discardRequests]

lemma planFromRunning_state (s : PWMSensorState) :
    (planFromRunning s).2.state = s.state ∨ (planFromRunning s).2.state = .stopping := by
  unfold planFromRunning discardRequests newState
  rcases ht : PWMRequest.get_max_target s.requests with _ | t <;> simp [ht] <;> split <;> simp

lemma tickFromStarting_state (s : PWMSensorState) (e : TickEnv) :
    (tickFromStarting s e).2.state = s.state ∨ (tickFromStarting s e).2.state = .running := by
  unfold tickFromStarting newState
  rcases hs : s.scheduler with _ | sch
  · left; simp [hs]
  · rcases hp : sch.was_passed e.now with ⟨_ | err, pb⟩
    · cases pb
      · left; simp [hs, hp]
      · by_cases hall : e.fansRunning.all (fun b => b)
        · right; simp [hs, hp, hall]
        · rcases hn : sch.set_next e.now with ⟨_ | err2, sch'⟩
          · left; simp [hs, hp, hall, hn]
          · right; simp [hs, hp, hall, hn]
    · left; simp [hs, hp]

lemma tickFromStopping_state (s : PWMSensorState) (e : TickEnv) :
    (tickFromStopping s e).2.state = s.state ∨ (tickFromStopping s e).2.state = .stopped := by
  unfold tickFromStopping newState pwmWrite
  rcases hs : s.scheduler with _ | sch
  · left; simp [hs]
  · rcases hp : sch.was_passed e.now with ⟨_ | err, pb⟩
    · cases pb
      · left; simp [hs, hp]
      · by_cases heq : s.last_value = s.target
        · right; simp [hs, hp, heq]
        · cases hw : e.write
          · rcases hn : sch.set_next e.now with ⟨e2, sch'⟩
            left; simp [hs, hp, heq, hw, hn]
          · left; simp [hs, hp, heq, hw]
    · left; simp [hs, hp]

lemma tickFromRunning_state (s : PWMSensorState) (e : TickEnv) :
    (tickFromRunning s e).2.state = s.state := by
  unfold tickFromRunning pwmWrite
  rcases hs : s.scheduler with _ | sch
  · simp [hs]
  · rcases hp : sch.was_passed e.now with ⟨_ | err, pb⟩
    · cases pb
      · simp [hs, hp]
      · by_cases heq : s.last_value = s.target
        · rcases hn : sch.set_next e.now with ⟨e2, sch'⟩
          simp [hs, hp, heq, hn]
        · cases hw : e.write
          · rcases hn : sch.set_next e.now with ⟨e2, sch'⟩
            simp [hs, hp, heq, hw, hn]
          · simp [hs, hp, heq, hw]
    · simp [hs, hp]

lemma pwmStep_trans (s : PWMSensorState) (c : PWMCall) :
    (pwmStep s c).state = s.state ∨
    (s.state = .stopped ∧ (pwmStep s c).state = .starting) ∨
    (s.state = .starting ∧ (pwmStep s c).state = .running) ∨
    (s.state = .running ∧ (pwmStep s c).state = .stopping) ∨
    (s.state = .stopping ∧ (pwmStep s c).state = .stopped) := by
  cases c with
  | plan w =>
    rcases hst : s.state with _ | _ | _ | _ | _
    · have h := planFromStopped_state s w
      simp only [pwmStep, plan_ahead, hst] at *
      tauto
    · left; simp [pwmStep, plan_ahead, hst]
    · have h := planFromRunning_state s
      simp only [pwmStep, plan_ahead, hst] at *
      tauto
    · left; simp [pwmStep, plan_ahead, hst]
    · left; simp [pwmStep, plan_ahead, hst]
  | tick e =>
    rcases hst : s.state with _ | _ | _ | _ | _
    · left; simp [pwmStep, u_tick, hst]
    · have h := tickFromStarting_state s e
      simp only [pwmStep, u_tick, hst] at *
      tauto
    · have h := tickFromRunning_state s e
      simp only [pwmStep, u_tick, hst] at *
      tauto
    · have h := tickFromStopping_state s e
      simp only [pwmStep, u_tick, hst] at *
      tauto
    · left; simp [pwmStep, u_tick, hst]

lemma pwmStep_into_running (s : PWMSensorState) (c : PWMCall)
    (h : (pwmStep s c).state = .running) :
    s.state = .running ∨ s.state = .starting := by
  rcases pwmStep_trans s c with h' | ⟨h1, h2⟩ | ⟨h1, h2⟩ | ⟨h1, h2⟩ | ⟨h1, h2⟩
  · left; rw [← h', h]
  · rw [h] at h2; cases h2
  · right; exact h1
  · rw [h] at h2; cases h2
  · rw [h] at h2; cases h2

lemma pwmStep_into_stopped (s : PWMSensorState) (c : PWMCall)
    (h : (pwmStep s c).state = .stopped) :
    s.state = .stopped ∨ s.state = .stopping := by
  rcases pwmStep_trans s c with h' | ⟨h1, h2⟩ | ⟨h1, h2⟩ | ⟨h1, h2⟩ | ⟨h1, h2⟩
  · left; rw [← h', h]
  · rw [h] at h2; cases h2
  · rw [h] at h2; cases h2
  · rw [h] at h2; cases h2
  · right; exact h1

lemma pwmRun_take_succ (s : PWMSensorState) (cs : List PWMCall) (i : ℕ) :
    pwmRun s (cs.take (i + 1))
      = match cs[i]? with
        | none => pwmRun s (cs.take i)
        | some c => pwmStep (pwmRun s (cs.take i)) c := by
  unfold pwmRun
  rw [List.take_succ, List.foldl_append]
  rcases hg : cs[i]? with _ | c <;> simp [hg]

lemma pwmRun_passes_through {b mid : PWMMachineState}
    (hstep : ∀ t c, (pwmStep t c).state = b → t.state = b ∨ t.state = mid)
    (s : PWMSensorState) (h0 : s.state ≠ b) (cs : List PWMCall) :
    ∀ i : ℕ, (pwmRun s (cs.take i)).state = b →
      ∃ j, j < i ∧ (pwmRun s (cs.take j)).state = mid := by
  intro i
  induction i with
  | zero =>
    intro h
    exact absurd h (by simpa [pwmRun] using h0)
  | succ n ih =>
    intro h
    rw [pwmRun_take_succ] at h
    rcases hg : cs[n]? with _ | c
    · rw [hg] at h
      obtain ⟨j, hj, hjm⟩ := ih h
      exact ⟨j, Nat.lt_succ_of_lt hj, hjm⟩
    · rw [hg] at h
      rcases hstep _ _ h with hb | hmid
      · obtain ⟨j, hj, hjm⟩ := ih hb
        exact ⟨j, Nat.lt_succ_of_lt hj, hjm⟩
      · exact ⟨n, Nat.lt_succ_self n, hmid⟩

/-- C4: over every sequence of `plan_ahead` and `u_tick` calls, no single
transition moves the state from STOPPED directly to RUNNING or from
RUNNING directly to STOPPED; every path from STOPPED to RUNNING passes
through STARTING, and every path from RUNNING to STOPPED passes through
STOPPING. -/
theorem pwm_no_direct_stopped_running_transition (s : PWMSensorState) (cs : List PWMCall) :
    (∀ i : ℕ, ¬((pwmRun s (cs.take i)).state = .stopped ∧
               (pwmRun s (cs.take (i+1))).state = .running)) ∧
    (∀ i : ℕ, ¬((pwmRun s (cs.take i)).state = .running ∧
               (pwmRun s (cs.take (i+1))).state = .stopped)) ∧
    (s.state = .stopped → ∀ i : ℕ, (pwmRun s (cs.take i)).state = .running →
      ∃ j, j < i ∧ (pwmRun s (cs.take j)).state = .starting) ∧
    (s.state = .running → ∀ i : ℕ, (pwmRun s (cs.take i)).state = .stopped →
      ∃ j, j < i ∧ (pwmRun s (cs.take j)).state = .stopping) := by
  refine ⟨?_, ?_, ?_, ?_⟩
  · rintro i ⟨h1, h2⟩
    rw [pwmRun_take_succ] at h2
    rcases hg : cs[i]? with _ | c
    · rw [hg] at h2
      rw [h1] at h2
      cases h2
    · rw [hg] at h2
      rcases pwmStep_into_running _ _ h2 with h | h <;> rw [h1] at h <;> cases h
  · rintro i ⟨h1, h2⟩
    rw [pwmRun_take_succ] at h2
    rcases hg : cs[i]? with _ | c
    · rw [hg] at h2
      rw [h1] at h2
      cases h2
    · rw [hg] at h2
      rcases pwmStep_into_stopped _ _ h2 with h | h <;> rw [h1] at h <;> cases h
  · intro h0
    exact pwmRun_passes_through pwmStep_into_running s (by simp [h0]) cs
  · intro h0
    exact pwmRun_passes_through pwmStep_into_stopped s (by simp [h0]) cs

theorem pwm_no_direct_stopped_running_transition_witness :
    ((∀ i : ℕ,
        ¬((pwmRun
            { state := .stopped, last_value := 0, target := 0, value := 0,
              requests := [⟨90, some 80⟩], scheduler := none, original_enable := some 2,
              delay := 10, fansPwmMax := [200], attempts := [] }
            (([.plan .ok, .tick ⟨0, [true], .ok⟩, .tick ⟨10, [true], .ok⟩]
                : List PWMCall).take i)).state = .stopped ∧
          (pwmRun
            { state := .stopped, last_value := 0, target := 0, value := 0,
              requests := [⟨90, some 80⟩], scheduler := none, original_enable := some 2,
              delay := 10, fansPwmMax := [200], attempts := [] }
            (([.plan .ok, .tick ⟨0, [true], .ok⟩, .tick ⟨10, [true], .ok⟩]
                : List PWMCall).take (i+1))).state = .running)) ∧
     (∀ i : ℕ,
        ¬((pwmRun
            { state := .stopped, last_value := 0, target := 0, value := 0,
              requests := [⟨90, some 80⟩], scheduler := none, original_enable := some 2,
              delay := 10, fansPwmMax := [200], attempts := [] }
            (([.plan .ok, .tick ⟨0, [true], .ok⟩, .tick ⟨10, [true], .ok⟩]
                : List PWMCall).take i)).state = .running ∧
          (pwmRun
            { state := .stopped, last_value := 0, target := 0, value := 0,
              requests := [⟨90, some 80⟩], scheduler := none, original_enable := some 2,
              delay := 10, fansPwmMax := [200], attempts := [] }
            (([.plan .ok, .tick ⟨0, [true], .ok⟩, .tick ⟨10, [true], .ok⟩]
                : List PWMCall).take (i+1))).state = .stopped)) ∧
     ({ state := .stopped, last_value := 0, target := 0, value := 0,
        requests := [⟨90, some 80⟩], scheduler := none, original_enable := some 2,
        delay := 10, fansPwmMax := [200],
        attempts := [] : PWMSensorState }.state = .stopped →
      ∀ i : ℕ,
        (pwmRun
            { state := .stopped, last_value := 0, target := 0, value := 0,
              requests := [⟨90, some 80⟩], scheduler := none, original_enable := some 2,
              delay := 10, fansPwmMax := [200], attempts := [] }
            (([.plan .ok, .tick ⟨0, [true], .ok⟩, .tick ⟨10, [true], .ok⟩]
                : List PWMCall).take i)).state = .running →
        ∃ j, j < i ∧
          (pwmRun
            { state := .stopped, last_value := 0, target := 0, value := 0,
              requests := [⟨90, some 80⟩], scheduler := none, original_enable := some 2,
              delay := 10, fansPwmMax := [200], attempts := [] }
            (([.plan .ok, .tick ⟨0, [true], .ok⟩, .tick ⟨10, [true], .ok⟩]
                : List PWMCall).take j)).state = .starting) ∧
     ({ state := .stopped, last_value := 0, target := 0, value := 0,
        requests := [⟨90, some 80⟩], scheduler := none, original_enable := some 2,
        delay := 10, fansPwmMax := [200],
        attempts := [] : PWMSensorState }.state = .running →
      ∀ i : ℕ,
        (pwmRun
            { state := .stopped, last_value := 0, target := 0, value := 0,
              requests := [⟨90, some 80⟩], scheduler := none, original_enable := some 2,
              delay := 10, fansPwmMax := [200], attempts := [] }
            (([.plan .ok, .tick ⟨0, [true], .ok⟩, .tick ⟨10, [true], .ok⟩]
                : List PWMCall).take i)).state = .stopped →
        ∃ j, j < i ∧
          (pwmRun
            { state := .stopped, last_value := 0, target := 0, value := 0,
              requests := [⟨90, some 80⟩], scheduler := none, original_enable := some 2,
              delay := 10, fansPwmMax := [200], attempts := [] }
            (([.plan .ok, .tick ⟨0, [true], .ok⟩, .tick ⟨10, [true], .ok⟩]
                : List PWMCall).take j)).state = .stopping)) ∧
    (pwmRun
        { state := .stopped, last_value := 0, target := 0, value := 0,
          requests := [⟨90, some 80⟩], scheduler := none, original_enable := some 2,
          delay := 10, fansPwmMax := [200], attempts := [] }
        [.plan .ok, .tick ⟨0, [true], .ok⟩, .tick ⟨10, [true], .ok⟩]).state = .running :=
  ⟨pwm_no_direct_stopped_running_transition _ _, by
    norm_num [pwmRun, pwmStep, plan_ahead, planFromStopped, PWMRequest.get_max,
      setStarting, pwmWrite, discardRequests, u_tick, tickFromStarting, newState,
      MicroScheduler.init, MicroScheduler.set_next, MicroScheduler.checkLimit,
      MicroScheduler.was_passed, List.foldl]⟩

/-! ### Claims C8, C10, C2, C5: planning, atomicity, arbitration, shutdown -/

/-- C8 counterexample: a `plan_ahead()` call entered in state STARTING
(likewise STOPPING or UNKNOWN) only logs an error and declines to plan,
leaving the pending requests list untouched and non-empty. -/
theorem plan_ahead_starting_keeps_requests :
    (plan_ahead
      { state := .starting, last_value := 0, target := 0, value := 0,
        requests := [⟨50, none⟩], scheduler := none, original_enable := none,
        delay := 10, fansPwmMax := [], attempts := [] }
      .ok).2.requests = [⟨50, none⟩] ∧
    ([(⟨50, none⟩ : Request)] : List Request) ≠ [] := by
  exact ⟨rfl, by decide⟩

/-- C8 amended: the pending requests list is empty at the end of every
`update()`, and at the end of every `plan_ahead()` entered in state
STOPPED (when the kick-start write does not raise) or RUNNING; a
`plan_ahead()` entered in STARTING, STOPPING or UNKNOWN, or one whose
kick-start write raises, leaves the requests untouched. -/
theorem requests_cleared_on_update_and_planning (s : PWMSensorState) (w : WriteRes)
    (r : Option ℤ) :
    (PWMSensor.update s r).requests = [] ∧
    (s.state = .running → (plan_ahead s w).2.requests = []) ∧
    (s.state = .stopped → (plan_ahead s w).1 = none → (plan_ahead s w).2.requests = []) ∧
    (s.state = .stopped → (plan_ahead s w).1.isSome → (plan_ahead s w).2.requests = s.requests) ∧
    (s.state = .starting ∨ s.state = .stopping ∨ s.state = .unknown →
      (plan_ahead s w).2.requests = s.requests) := by
  refine ⟨?_, ?_, ?_, ?_, ?_⟩
  · unfold PWMSensor.update discardRequests
    rcases r with _ | v <;> simp
  · intro hst
    unfold plan_ahead planFromRunning discardRequests newState
    rw [hst]
  · intro hst hok
    rcases hm : (PWMRequest.get_max s.requests).1 with _ | rs
    · simp [plan_ahead, hst, planFromStopped, hm, discardRequests]
    · cases w
      · simp [plan_ahead, hst, planFromStopped, hm, setStarting, pwmWrite, discardRequests]
      · simp [plan_ahead, hst, planFromStopped, hm, setStarting, pwmWrite] at hok
  · intro hst herr
    rcases hm : (PWMRequest.get_max s.requests).1 with _ | rs
    · simp [plan_ahead, hst, planFromStopped, hm, discardRequests] at herr
    · cases w
      · simp [plan_ahead, hst, planFromStopped, hm, setStarting, pwmWrite, discardRequests] at herr
      · simp [plan_ahead, hst, planFromStopped, hm, setStarting, pwmWrite]
  · rintro (hst | hst | hst) <;> simp [plan_ahead, hst]

theorem requests_cleared_on_update_and_planning_witness :
    ((PWMSensor.update sampleRunningState (some 4)).requests = []) ∧
    (sampleRunningState.state = .running →
      (plan_ahead sampleRunningState .ok).2.requests = []) ∧
    (sampleRunningState.state = .stopped →
      (plan_ahead sampleRunningState .ok).1 = none →
      (plan_ahead sampleRunningState .ok).2.requests = []) ∧
    (sampleRunningState.state = .stopped →
      (plan_ahead sampleRunningState .ok).1.isSome →
      (plan_ahead sampleRunningState .ok).2.requests = sampleRunningState.requests) ∧
    (sampleRunningState.state = .starting ∨ sampleRunningState.state = .stopping ∨
        sampleRunningState.state = .unknown →
      (plan_ahead sampleRunningState .ok).2.requests = sampleRunningState.requests) :=
  requests_cleared_on_update_and_planning sampleRunningState .ok (some 4)

/-- C10: if `plan_ahead()` is entered with the PWM output STOPPED and the
kick-start write raises, the state is still STOPPED and `target` and
`last_value` hold their previous values — the transition to STARTING and
the assignments happen only after the write has returned success. -/
theorem kickstart_write_failure_is_atomic (s : PWMSensorState)
    (hst : s.state = .stopped) (hrq : (PWMRequest.get_max s.requests).1.isSome) :
    (plan_ahead s .err).1 = some Err.controlRuntimeError ∧
    (plan_ahead s .err).2.state = .stopped ∧
    (plan_ahead s .err).2.target = s.target ∧
    (plan_ahead s .err).2.last_value = s.last_value := by
  obtain ⟨rs, hm⟩ := Option.isSome_iff_exists.1 hrq
  simp [plan_ahead, hst, planFromStopped, hm, setStarting, pwmWrite]

theorem kickstart_write_failure_is_atomic_witness :
    sampleStoppedState.state = .stopped ∧
    (PWMRequest.get_max sampleStoppedState.requests).1.isSome = true ∧
    ((plan_ahead sampleStoppedState .err).1 = some Err.controlRuntimeError ∧
     (plan_ahead sampleStoppedState .err).2.state = .stopped ∧
     (plan_ahead sampleStoppedState .err).2.target = sampleStoppedState.target ∧
     (plan_ahead sampleStoppedState .err).2.last_value = sampleStoppedState.last_value) :=
  ⟨rfl, by decide, kickstart_write_failure_is_atomic sampleStoppedState rfl (by decide)⟩

/-- C2 counterexample: for a STOPPED PWM output with pending requests
`[(start=None, target=50), (start=80, target=90)]`, `plan_ahead()` writes
90 — the maximum over both fields of both requests — to the device, not
the aggregated start value 80 the claim names. -/
theorem arbitration_writes_aggregate_not_start :
    (plan_ahead sampleArbitrationState .ok).2.attempts = [Attempt.device 90] ∧
    Attempt.device 90 ≠ Attempt.device 80 := by
  exact ⟨rfl, by decide⟩

/-- C2 amended: in that scenario the per-field aggregation of
`PWMRequest.get_max` indeed selects start 80 and target 90, but the value
written to the device is the maximum of the aggregated start, the
aggregated target, and `PWM_MIN` — here 90 — and the steady-state target
is set to 90. -/
theorem arbitration_from_stopped (s : PWMSensorState)
    (hst : s.state = .stopped)
    (hreq : s.requests = [⟨50, none⟩, ⟨90, some 80⟩]) :
    PWMRequest.get_max s.requests
      = (some ⟨90, some 80⟩, some ⟨90, some 80⟩) ∧
    (plan_ahead s .ok).1 = none ∧
    (plan_ahead s .ok).2.attempts = s.attempts ++ [Attempt.device 90] ∧
    (plan_ahead s .ok).2.target = 90 ∧
    (plan_ahead s .ok).2.last_value = 90 ∧
    (plan_ahead s .ok).2.state = .starting ∧
    (plan_ahead s .ok).2.requests = [] := by
  refine ⟨by simp [hreq, PWMRequest.get_max], ?_, ?_, ?_, ?_, ?_, ?_⟩ <;>
    simp [plan_ahead, hst, planFromStopped, hreq, PWMRequest.get_max, PWM_MIN,
      setStarting, pwmWrite, discardRequests]

theorem arbitration_from_stopped_witness :
    sampleArbitrationState.state = .stopped ∧
    sampleArbitrationState.requests = [⟨50, none⟩, ⟨90, some 80⟩] ∧
    (PWMRequest.get_max sampleArbitrationState.requests
      = (some ⟨90, some 80⟩, some ⟨90, some 80⟩) ∧
    (plan_ahead sampleArbitrationState .ok).1 = none ∧
    (plan_ahead sampleArbitrationState .ok).2.attempts
      = sampleArbitrationState.attempts ++ [Attempt.device 90] ∧
    (plan_ahead sampleArbitrationState .ok).2.target = 90 ∧
    (plan_ahead sampleArbitrationState .ok).2.last_value = 90 ∧
    (plan_ahead sampleArbitrationState .ok).2.state = .starting ∧
    (plan_ahead sampleArbitrationState .ok).2.requests = []) :=
  ⟨rfl, rfl, arbitration_from_stopped sampleArbitrationState rfl rfl⟩

/-- C5 counterexample: with `ignore_exceptions = False`, a failing
`write_enable` during `shutdown` raises `ControlRuntimeError` out of
`shutdown` — it is not merely logged. -/
theorem shutdown_raises_without_ignore :
    (PWMSensor.shutdown sampleShutdownState ⟨.err, .err, .err⟩ false).1
      = some Err.controlRuntimeError ∧
    some Err.controlRuntimeError ≠ (none : Option Err) := by
  exact ⟨rfl, by decide⟩

/-- C5 amended: `shutdown(ignore_exceptions=True)` never raises, and it
attempts, in order and stopping at the first success: (1) restoring
`original_enable` when one was captured, (2) writing the maximum pending
requested target when requests are pending, (3) writing the maximum
configured `pwm_max` over the registered fans. -/
theorem shutdown_fallback_order (s : PWMSensorState) (env : ShutdownEnv) :
    (PWMSensor.shutdown s env true).1 = none ∧
    (PWMSensor.shutdown s env true).2.2.attempts
      = s.attempts
        ++ (match s.original_enable with
            | some oe => [Attempt.enable oe]
            | none => [])
        ++ (if s.original_enable = none ∨ env.enable = .err then
              match PWMRequest.get_max_target s.requests with
              | some t => [Attempt.device t]
              | none => []
            else [])
        ++ (if (s.original_enable = none ∨ env.enable = .err) ∧
               (PWMRequest.get_max_target s.requests = none ∨ env.request = .err) then
              [Attempt.device (getMaxCfg s)]
            else []) := by
  rcases env with ⟨we, wr, wm⟩
  rcases hoe : s.original_enable with _ | oe <;>
    cases we <;>
    rcases hgt : PWMRequest.get_max_target s.requests with _ | t <;>
    cases wr <;>
    cases wm <;>
    simp [PWMSensor.shutdown, shutdownStep2, shutdownStep3, writeEnable, pwmWrite,
      discardRequests, getMaxCfg, hoe, hgt]

end FanControl
